import Mathlib

/-!
Verification development for the `sql-db-utils` repository.

The development shallowly embeds the two stateful components of the
repository:

* `sql_db_utils/session_management.py` — the connection-engine cache
  (`SQLSessionManager`), its retrying bootstrap
  (`_ensure_engine_connection`), the postcreate hook registry
  (`postcreate_decorator`, `register_postcreate`,
  `register_postcreate_manual`) and the hook runner (`run_postcreate`);

* `sql_db_utils/asyncio/declarative_utils.py` — the schema-binding cache
  (`DeclarativeUtils`, `_DeclarativeUtilsFactory`): artifact preparation
  (`_prepare_declarative_file`), module loading with conflict recovery
  (`_get_declarative_module`, `refresh_module`), and fuzzy name
  resolution (`get_declarative_class`).

Engines, modules and hook actions are modelled as explicitly allocated
identifiers; external collaborators (SQLAlchemy engines and sessions, the
Python import machinery, pydantic's `to_pascal`) are modelled at their
interface, as the spec directs.
-/

namespace SqlDbUtils

/-! ## Session management: `SQLSessionManager` (session_management.py) -/

/-- Configuration bits of `PostgresConfig` that `_get_engine` branches on:
`PG_ENABLE_POOLING` selects one of the two `create_engine` calls, and
`PG_ANTI_PERSISTENT` suppresses insertion into `_db_engines`.  Pool sizing,
timeouts and connect args only parameterize the opaque engine object and are
not modelled. -/
structure SMConfig where
  enablePooling : Bool
  antiPersistent : Bool
deriving DecidableEq, Repr

/-- A SQLAlchemy engine as produced by one of the two `create_engine`
branches of `_get_engine`: an allocation identity (object identity of the
pool) plus which pooling strategy built it. -/
structure Engine where
  id : Nat
  pooled : Bool
deriving DecidableEq, Repr

/-- The mutable state of a `SQLSessionManager`: the `_db_engines` dict
(qualified database name to engine), a fresh-allocation counter standing for
`create_engine` producing a new pool object, and the log of
`run_postcreate` invocations `(raw database, tenant)` in the order
`_get_engine` triggered them. -/
structure SMState where
  dbEngines : List (String × Engine)
  nextEngineId : Nat
  postcreateRuns : List (String × Option String)
deriving DecidableEq, Repr

/-- `SQLSessionManager.__init__`: empty engine cache, no hooks run yet. -/
def initSMState : SMState := ⟨[], 0, []⟩

/-- `SQLSessionManager._get_fully_qualified_db`:
`f"{tenant_id}__{database}" if tenant_id else database`. -/
def fullyQualifiedDb (database : String) (tenantId : Option String) : String :=
  match tenantId with
  | some t => t ++ "__" ++ database
  | none => database

/-- `self._db_engines.get(qualified_db_name)`. -/
def lookupEngine (s : SMState) (q : String) : Option Engine :=
  (s.dbEngines.find? (fun p => p.1 = q)).map (fun p => p.2)

/-- `SQLSessionManager._get_engine`.  On a cache hit the cached engine is
returned unchanged.  On a miss a fresh engine is constructed (pooled or
`NullPool` according to `PG_ENABLE_POOLING`), `_ensure_engine_connection`
runs (modelled separately, no effect on the cache), the engine is inserted
into `_db_engines` unless `PG_ANTI_PERSISTENT`, then
`create_default_psql_dependencies` and `run_postcreate` run — the latter
recorded in `postcreateRuns`. -/
def getEngine (cfg : SMConfig) (s : SMState) (database : String)
    (tenantId : Option String) : Engine × SMState :=
  let q := fullyQualifiedDb database tenantId
  match lookupEngine s q with
  | some e => (e, s)
  | none =>
    let e : Engine := ⟨s.nextEngineId, cfg.enablePooling⟩
    let s1 : SMState := { s with nextEngineId := s.nextEngineId + 1 }
    let s2 : SMState :=
      if cfg.antiPersistent then s1
      else { s1 with dbEngines := (q, e) :: s1.dbEngines }
    let s3 : SMState :=
      { s2 with postcreateRuns := s2.postcreateRuns ++ [(database, tenantId)] }
    (e, s3)

/-- Repeated calls `get_engine(database, tenant_id)` on the same manager,
discarding the returned engines. -/
def iterateGetEngine (cfg : SMConfig) (database : String)
    (tenantId : Option String) : Nat → SMState → SMState
  | 0, s => s
  | n + 1, s => iterateGetEngine cfg database tenantId n (getEngine cfg s database tenantId).2

/-- How many times `run_postcreate` has run for the identity
`(database, tenant_id)`. -/
def runsFor (s : SMState) (database : String) (tenantId : Option String) : Nat :=
  s.postcreateRuns.count (database, tenantId)

/-! ## Bootstrap: `SQLSessionManager._ensure_engine_connection` -/

/-- Outcome of one iteration of the bootstrap loop body: the liveness probe
succeeds (`break`), or `database_exists` / `connect` raises an
`OperationalError` whose text either does not contain
`"server login has been failing"` (transient) or does (permanent
authentication failure). -/
inductive AttemptOutcome
  | success
  | transientFailure
  | authFailure
deriving DecidableEq, Repr

/-- Loop body count of `_ensure_engine_connection`, translated attempt by
attempt.  `outcomes i` is what attempt `i` does.  On `success` the loop
`break`s.  On a transient failure the `if` branch logs and `continue`s.  On
an authentication failure the code only logs
`"Server connection failed"`; the `except` block then falls off its end and
the `for` loop proceeds to the next iteration — behaviourally identical to
`continue`. The function returns the number of attempts performed;
the Python function never raises, whatever the outcomes. -/
def ensureAttempts (outcomes : Nat → AttemptOutcome) : Nat → Nat → Nat
  | _, 0 => 0
  | i, remaining + 1 =>
    match outcomes i with
    | .success => 1
    | .transientFailure => 1 + ensureAttempts outcomes (i + 1) remaining
    | .authFailure => 1 + ensureAttempts outcomes (i + 1) remaining

/-- `_ensure_engine_connection` with `PG_MAX_RETRY = maxRetry`: number of
connection attempts performed. -/
def ensureEngineConnection (outcomes : Nat → AttemptOutcome) (maxRetry : Nat) : Nat :=
  ensureAttempts outcomes 0 maxRetry

/-! ## Postcreate hooks: registration (`postcreate_decorator`) -/

/-- A postcreate store (`_postcreate_auto` or `_postcreate_manual`): a dict
from raw database name to the list of registered actions, in registration
order.  Actions are identified by allocation identity (`Nat`).  Dict
assignment is modelled by shadowing cons; `storeGet` reads the most recent
binding, like `dict.get(db, [])`. -/
def Store := List (String × List Nat)

/-- `postcreate_store.get(db, [])`. -/
def storeGet (st : Store) (db : String) : List Nat :=
  ((st.find? (fun p => p.1 = db)).map (fun p => p.2)).getD []

/-- `postcreate_store[db] = actions`. -/
def storeSet (st : Store) (db : String) (acts : List Nat) : Store :=
  (db, acts) :: st

/-- The `raw_db` argument of `postcreate_decorator`: a single name or a list
of names. -/
inductive RawDb
  | single (db : String)
  | list (dbs : List String)
deriving DecidableEq, Repr

/-- The inner `decorator` returned by `SQLSessionManager.postcreate_decorator`
applied to a function `func`: for each given raw database name, append
`func` to that name's action list (`get`, `append`, re-assign).  The Python
`decorator` has no `return` statement, so it returns `None`; the second
component is that return value — the name being decorated is rebound
to it in the caller's namespace. -/
def decoratorApply (rawDb : RawDb) (st : Store) (func : Nat) : Store × Option Nat :=
  match rawDb with
  | .single db => (storeSet st db (storeGet st db ++ [func]), none)
  | .list dbs =>
    (dbs.foldl (fun s db => storeSet s db (storeGet s db ++ [func])) st, none)

/-- How many times `rawDb` mentions the name `db`. -/
def rawDbCount (rawDb : RawDb) (db : String) : Nat :=
  match rawDb with
  | .single d => if d = db then 1 else 0
  | .list dbs => dbs.count db

/-! ## Postcreate hooks: execution (`run_postcreate`) -/

/-- The persisted database state touched by hook statements, abstracted as
the list of applied effects. -/
abbrev DBState := List String

/-- A SQL statement as `session.execute` sees it: applied to the current
transaction view it either yields the updated view or raises. -/
abbrev Stmt := DBState → Option DBState

/-- The value returned by an `auto` hook function: a single statement or a
list of statements (`if isinstance(result, list)`). -/
inductive StmtResult
  | single (s : Stmt)
  | multiple (ss : List Stmt)

/-- An `auto` hook: called with the tenant id, returns its statements. -/
abbrev AutoHook := Option String → StmtResult

/-- A `manual` hook: receives the session (its committed state) and the
tenant id, manages its own statement boundaries. -/
abbrev ManualHook := DBState → Option String → DBState

/-- The statements produced by one `auto` hook for a tenant:
`result = postcreate_func(tenant_id)`, one statement or a list. -/
def stmtsOf (hook : AutoHook) (tenantId : Option String) : List Stmt :=
  match hook tenantId with
  | .single s => [s]
  | .multiple ss => ss

/-- `session.execute` over a list of statements on the sessions
`run_postcreate` opens.  Those sessions are bound to engines that
`_get_engine` creates with `isolation_level="AUTOCOMMIT"` (both
`create_engine` branches, session_management.py lines 66 and 79), so the
driver commits each successful statement immediately; a failing statement
raises, and everything executed before it is already persisted.  Result:
the outcome (`none` when a statement raised) and the persisted database
state reached at that point. -/
def execStmtsAutocommit : List Stmt → DBState → Option DBState × DBState
  | [], d => (some d, d)
  | stmt :: rest, d =>
    match stmt d with
    | some d1 => execStmtsAutocommit rest d1
    | none => (none, d)

/-- The body of `with session.begin():` in `run_postcreate`: each
registered `auto` hook runs in order, all of its statements executed on the
session.  On the AUTOCOMMIT connection the block only scopes the
exception — its closing commit adds nothing and its rollback on failure
restores nothing, every executed statement being already persisted. -/
def runAutoAutocommit : List AutoHook → Option String → DBState → Option DBState × DBState
  | [], _, d => (some d, d)
  | hook :: rest, t, d =>
    match execStmtsAutocommit (stmtsOf hook t) d with
    | (some d1, _) => runAutoAutocommit rest t d1
    | (none, d1) => (none, d1)

/-- `SQLSessionManager.run_postcreate` for a database whose `auto` hooks
are `auto` and `manual` hooks are `manual`: open a session over `db`
(bound to an AUTOCOMMIT engine); run all `auto` hooks inside the
`with session.begin()` block — if a statement raises, the exception
propagates to the caller, skipping the remaining statements and the
`manual` hooks, but the statements already executed stay persisted (the
block's rollback is a no-op under AUTOCOMMIT); otherwise run the `manual`
hooks in order against the session; `session.commit()`; close.  Result:
the session outcome (`none` when a hook statement raised) and the
persisted database state. -/
def runPostcreate (auto : List AutoHook) (manual : List ManualHook)
    (tenantId : Option String) (db : DBState) : Option DBState × DBState :=
  match runAutoAutocommit auto tenantId db with
  | (none, d1) => (none, d1)
  | (some d1, _) =>
    let dbFinal := manual.foldl (fun d h => h d tenantId) d1
    (some dbFinal, dbFinal)

/-- All statements of all `auto` hooks for a tenant, in registration
order. -/
def allAutoStmts (auto : List AutoHook) (tenantId : Option String) : List Stmt :=
  (auto.map (fun h => stmtsOf h tenantId)).flatten

/-! ## Schema binding cache: `DeclarativeUtils` (asyncio/declarative_utils.py) -/

/-- The constructor arguments of a `DeclarativeUtils` instance:
`raw_database`, `tenant_id`, `schema` and the `raw_db` flag. -/
structure DUArgs where
  rawDatabase : String
  tenantId : String
  schema : String
  rawDb : Bool
deriving DecidableEq, Repr

/-- Configuration and environment bits the binding-cache code branches on:
`ModuleConfig.DEFER_GEN_REFRESH`; whether the optional codegen extra
(`sql_db_utils.asyncio.codegen`) is importable; and whether the
session/reflection/generation steps succeed (they raise a generic exception
otherwise). -/
structure DUFlags where
  deferGenRefresh : Bool
  codegenInstalled : Bool
  reflectOk : Bool
deriving DecidableEq, Repr

/-- The on-disk artifact path
`DECLARATIVES_PATH / tenant_id / f"async_{raw_database}_{schema}.py"`,
relative to `DECLARATIVES_PATH`. -/
def artifactFile (a : DUArgs) : String :=
  a.tenantId ++ "/async_" ++ a.rawDatabase ++ "_" ++ a.schema ++ ".py"

/-- The tenant directory `DECLARATIVES_PATH / tenant_id`. -/
def tenantDir (a : DUArgs) : String := a.tenantId

/-- The tenant package marker `DECLARATIVES_PATH / tenant_id / "__init__.py"`. -/
def tenantInitFile (a : DUArgs) : String := a.tenantId ++ "/__init__.py"

/-- The deterministic logical module path
`f"{tenant_id}.async_{raw_database}_{schema}"` returned by
`_prepare_declarative_file` and used for loading. -/
def declModulePath (a : DUArgs) : String :=
  a.tenantId ++ ".async_" ++ a.rawDatabase ++ "_" ++ a.schema

/-- Observable operations performed by the binding cache, in order. -/
inductive Eff
  | mkdirTenant (dir : String)
  | writeInit (file : String)
  | reflectSchema
  | writeArtifact (file : String)
  | importModule (path : String)
  | reloadModule (path : String)
  | removeBaseClass (db sc : String)
  | cancelTasks
  | exitProcess
deriving DecidableEq, Repr

/-- The Python process state the binding cache works against: which
paths exist on disk, the content version of each artifact file (bumped on
every regeneration), the declarative bases registered in
`base_class_generator` keyed by `(raw_database, schema)`, the loaded
modules (`sys.modules`) by logical path, the artifact version each loaded
module object was built from, and the fresh-module counter. -/
structure PyRuntime where
  files : List String
  artifactVer : List (String × Nat)
  registeredBases : List (String × String)
  sysModules : List (String × Nat)
  moduleVer : List (Nat × Nat)
  nextModule : Nat
deriving DecidableEq, Repr

/-- Content version currently on disk at artifact path `fp` (0 before any
write). -/
def getArtifactVer (rt : PyRuntime) (fp : String) : Nat :=
  (((rt.artifactVer.find? (fun p => p.1 = fp)).map (fun p => p.2)).getD 0)

/-- The generator writing a fresh artifact at `fp`: the file now exists and
its content version is bumped. -/
def bumpArtifact (rt : PyRuntime) (fp : String) : PyRuntime :=
  { rt with
    files := if fp ∈ rt.files then rt.files else fp :: rt.files,
    artifactVer := (fp, getArtifactVer rt fp + 1) :: rt.artifactVer }

/-- `sys.modules.get(path)`. -/
def lookupSysModule (rt : PyRuntime) (p : String) : Option Nat :=
  ((rt.sysModules.find? (fun q => q.1 = p)).map (fun q => q.2))

/-- Artifact version a loaded module was executed from. -/
def getModuleVer (rt : PyRuntime) (m : Nat) : Nat :=
  (((rt.moduleVer.find? (fun p => p.1 = m)).map (fun p => p.2)).getD 0)

/-- Result of `_prepare_declarative_file`: the logical module path string
(both the early deferred return and the final `return`), or the explicit
`return False` of the generic `except Exception` handler. -/
inductive PrepRes
  | path (p : String)
  | failedFalse
deriving DecidableEq, Repr

/-- `DeclarativeUtils._prepare_declarative_file(refresh)`.  Creates the
tenant directory and its `__init__.py` when missing; if the artifact file
exists, `DEFER_GEN_REFRESH` is set and no refresh was requested, returns
the logical path at once.  Otherwise it enters the `try` block: importing
the codegen extra raises `ImportError` when absent — caught, logged, and
control falls through to the final `return` of the logical path (no
reflection, no write).  A generic failure while reflecting or generating is
caught by `except Exception` and returns `False`.  On success the reflected
metadata is handed to the generator, which writes the artifact.  The
tenant-package bootstrap (the first two existence checks and writes of the
Python method) is split out as `ensureTenantPkg`. -/
def ensureTenantPkg (a : DUArgs) (rt : PyRuntime) : PyRuntime × List Eff :=
  if tenantDir a ∈ rt.files then
    if tenantInitFile a ∈ rt.files then (rt, [])
    else ({ rt with files := tenantInitFile a :: rt.files }, [Eff.writeInit (tenantInitFile a)])
  else
    if tenantInitFile a ∈ tenantDir a :: rt.files then
      ({ rt with files := tenantDir a :: rt.files }, [Eff.mkdirTenant (tenantDir a)])
    else
      ({ rt with files := tenantInitFile a :: tenantDir a :: rt.files },
        [Eff.mkdirTenant (tenantDir a), Eff.writeInit (tenantInitFile a)])

/-- The rest of `_prepare_declarative_file` after the tenant-package
bootstrap; see `ensureTenantPkg`. -/
def prepareDeclarativeFile (a : DUArgs) (refresh : Bool) (f : DUFlags)
    (rt : PyRuntime) : PrepRes × PyRuntime × List Eff :=
  let rt2 := (ensureTenantPkg a rt).1
  let es := (ensureTenantPkg a rt).2
  let fp := artifactFile a
  if fp ∈ rt2.files ∧ f.deferGenRefresh ∧ refresh = false then
    (PrepRes.path (declModulePath a), rt2, es)
  else if f.codegenInstalled = false then
    (PrepRes.path (declModulePath a), rt2, es)
  else if f.reflectOk = false then
    (PrepRes.failedFalse, rt2, es ++ [Eff.reflectSchema])
  else
    (PrepRes.path (declModulePath a), bumpArtifact rt2 fp,
      es ++ [Eff.reflectSchema, Eff.writeArtifact fp])

/-- Result of one `importlib.import_module` call on the logical path. -/
inductive ImportRes
  | ok (m : Nat)
  | errNoModule
  | errAlreadyDefined
deriving DecidableEq, Repr

/-- Model of `importlib.import_module(path)` for a binding artifact (the
module-loading machinery is an external collaborator).  A path already in
`sys.modules` is returned as is, without re-executing anything.  Otherwise
the artifact file is located — missing file raises the
`"No module named"` error — and executed: executing a generated artifact
registers a declarative base for `(raw_database, schema)`, and raises the
`"is already defined"` conflict when one is already registered; on success
a fresh module object bound to the current artifact content is recorded in
`sys.modules`. -/
def importModule (p : String) (a : DUArgs) (rt : PyRuntime) : ImportRes × PyRuntime :=
  match lookupSysModule rt p with
  | some m => (ImportRes.ok m, rt)
  | none =>
    if artifactFile a ∈ rt.files then
      if (a.rawDatabase, a.schema) ∈ rt.registeredBases then
        (ImportRes.errAlreadyDefined, rt)
      else
        let m := rt.nextModule
        (ImportRes.ok m,
          { rt with
            sysModules := (p, m) :: rt.sysModules,
            registeredBases := (a.rawDatabase, a.schema) :: rt.registeredBases,
            moduleVer := (m, getArtifactVer rt (artifactFile a)) :: rt.moduleVer,
            nextModule := m + 1 })
    else (ImportRes.errNoModule, rt)

/-- Model of `importlib.reload(module)`: re-execute the artifact into the
same module object, rebinding it to the current artifact content; like any
execution of the artifact it registers the declarative base and fails if
one is already registered. -/
def reloadPyModule (m : Nat) (a : DUArgs) (rt : PyRuntime) : Option PyRuntime :=
  if (a.rawDatabase, a.schema) ∈ rt.registeredBases then none
  else
    some { rt with
      registeredBases := (a.rawDatabase, a.schema) :: rt.registeredBases,
      moduleVer := (m, getArtifactVer rt (artifactFile a)) :: rt.moduleVer }

/-- The `self.declarative_module` attribute: `None` after `__init__`, the
logical path string while an import is in flight, or the loaded module. -/
inductive ModRef
  | noneRef
  | pathStr (p : String)
  | module (m : Nat)
deriving DecidableEq, Repr

/-- `DeclarativeUtils.refresh_module(non_refresh)`: remove the registered
declarative base for `(raw_database, schema)` via
`base_class_generator.remove_base_class`, regenerate the artifact with
`_prepare_declarative_file(True)`, then either
`importlib.import_module(self.declarative_module)` (when `non_refresh` —
only meaningful while `self.declarative_module` is the path string) or
`importlib.reload(self.declarative_module)` (needs the loaded module
object); the result is stored back into `self.declarative_module`.
`Except.error` stands for the raised exception the caller catches. -/
def refreshModule (nonRefresh : Bool) (a : DUArgs) (f : DUFlags)
    (dm : ModRef) (rt : PyRuntime) : Except Unit ModRef × PyRuntime × List Eff :=
  let rt1 : PyRuntime :=
    { rt with registeredBases :=
        rt.registeredBases.filter (fun p => p ≠ (a.rawDatabase, a.schema)) }
  let pr := prepareDeclarativeFile a true f rt1
  let es0 := Eff.removeBaseClass a.rawDatabase a.schema :: pr.2.2
  let rt2 := pr.2.1
  if nonRefresh then
    match dm with
    | ModRef.pathStr p =>
      match importModule p a rt2 with
      | (ImportRes.ok m, rt3) => (Except.ok (ModRef.module m), rt3, es0 ++ [Eff.importModule p])
      | (_, rt3) => (Except.error (), rt3, es0 ++ [Eff.importModule p])
    | _ => (Except.error (), rt2, es0)
  else
    match dm with
    | ModRef.module m =>
      match reloadPyModule m a rt2 with
      | some rt3 =>
        (Except.ok (ModRef.module m), rt3, es0 ++ [Eff.reloadModule (declModulePath a)])
      | none => (Except.error (), rt2, es0 ++ [Eff.reloadModule (declModulePath a)])
    | _ => (Except.error (), rt2, es0)

/-- Outcome of `_get_declarative_module` as the caller sees it: a (weak
proxy to a) loaded module, the implicit / explicit `None` returns, or
process termination via `sys.exit(1)`. -/
inductive ModResult
  | mod (m : Nat)
  | noneRes
  | exit
deriving DecidableEq, Repr

/-- `DeclarativeUtils._get_declarative_module`.  Runs
`_prepare_declarative_file()` (no refresh); a falsy result (`False`) makes
the walrus `if` skip everything and the method return `None`.  Otherwise
`self.declarative_module` is set to the path string and the import is
attempted.  On success the module is stored and returned.  On the
`"No module named"` error, pending asyncio tasks are cancelled and the
process exits with status 1.  On the `"is already defined"` conflict,
`refresh_module(non_refresh=True)` runs and a proxy to the reloaded
`self.declarative_module` is returned; if that recovery itself raises, the
method returns `None`.  Any other import failure returns `None`. -/
def getDeclarativeModule (a : DUArgs) (f : DUFlags) (dm : ModRef)
    (rt : PyRuntime) : ModResult × ModRef × PyRuntime × List Eff :=
  match prepareDeclarativeFile a false f rt with
  | (PrepRes.failedFalse, rt1, es1) => (ModResult.noneRes, dm, rt1, es1)
  | (PrepRes.path p, rt1, es1) =>
    let dm1 := ModRef.pathStr p
    match importModule p a rt1 with
    | (ImportRes.ok m, rt2) =>
      (ModResult.mod m, ModRef.module m, rt2, es1 ++ [Eff.importModule p])
    | (ImportRes.errNoModule, rt2) =>
      (ModResult.exit, dm1, rt2,
        es1 ++ [Eff.importModule p, Eff.cancelTasks, Eff.exitProcess])
    | (ImportRes.errAlreadyDefined, rt2) =>
      match refreshModule true a f dm1 rt2 with
      | (Except.ok dm2, rt3, es3) =>
        (match dm2 with
          | ModRef.module m => ModResult.mod m
          | _ => ModResult.noneRes,
          dm2, rt3, es1 ++ [Eff.importModule p] ++ es3)
      | (Except.error _, rt3, es3) =>
        (ModResult.noneRes, dm1, rt3, es1 ++ [Eff.importModule p] ++ es3)

/-! ## Fuzzy name resolution: `get_declarative_class` -/

/-- Python `str.title()` word-state fold over ASCII characters: a letter
following a non-letter is uppercased, a letter following a letter is
lowercased. -/
def pyTitleAux : Bool → List Char → List Char
  | _, [] => []
  | prevCased, c :: rest =>
    if c.isAlpha then
      (if prevCased then c.toLower else c.toUpper) :: pyTitleAux true rest
    else c :: pyTitleAux false rest

/-- Ascii alphanumeric test, the character class of the first group of
pydantic's underscore-removal pattern. -/
def isAsciiAlnum (c : Char) : Bool := c.isAlpha || c.isDigit

/-- The substitution pass of pydantic's `to_pascal`: drop each underscore
that is preceded by an alphanumeric character and followed by a digit or an
uppercase letter (regex group retained, lookahead not consumed).  `prev` is
the previous input character. -/
def pascalDropUnderscores : Option Char → List Char → List Char
  | _, [] => []
  | prev, c :: rest =>
    if c = '_' then
      match prev, rest with
      | some pc, n :: _ =>
        if isAsciiAlnum pc ∧ (n.isUpper ∨ n.isDigit) then
          pascalDropUnderscores (some c) rest
        else c :: pascalDropUnderscores (some c) rest
      | _, _ => c :: pascalDropUnderscores (some c) rest
    else c :: pascalDropUnderscores (some c) rest

/-- ASCII model of `pydantic.alias_generators.to_pascal` (external
collaborator): `snake.title()` followed by removing underscores between an
alphanumeric and a following digit or capital. -/
def toPascal (s : String) : String :=
  String.mk (pascalDropUnderscores none (pyTitleAux false s.data))

/-- `table_name.replace("_", "")`. -/
def stripUnderscoresAll (s : String) : String :=
  String.mk (s.data.filter (fun c => c ≠ '_'))

/-- A loaded binding module's exposed attributes: binding classes by
attribute name (identified by allocation identity). -/
def BindingModule := List (String × Nat)

/-- `getattr(self.declarative_module, name)` with `AttributeError` as
`none`. -/
def getAttr (m : BindingModule) (name : String) : Option Nat :=
  ((m.find? (fun p => p.1 = name)).map (fun p => p.2))

/-- `DeclarativeUtils.get_declarative_class(table_name)`: guarded on a
truthy `self.declarative_module`, then nested `try`/`except AttributeError`
lookups — Pascal-cased name, `"t_"`-prefixed name, the name itself, the
name with underscores removed — returning the first attribute found, and
`None` (after logging) when all four miss. -/
def getDeclarativeClass (dm : Option BindingModule) (tableName : String) : Option Nat :=
  match dm with
  | none => none
  | some m =>
    match getAttr m (toPascal tableName) with
    | some c => some c
    | none =>
      match getAttr m ("t_" ++ tableName) with
      | some c => some c
      | none =>
        match getAttr m tableName with
        | some c => some c
        | none => getAttr m (stripUnderscoresAll tableName)

/-- Specification-side restatement of §4.4 lookup-by-name: try the four
candidate spellings in the stated order and return the first binding that
exists. -/
def specNameResolution (m : BindingModule) (tableName : String) : Option Nat :=
  ([toPascal tableName, "t_" ++ tableName, tableName,
    stripUnderscoresAll tableName].map (getAttr m)).foldl
    (fun acc r => match acc with | some c => some c | none => r) none

/-! ## Factory cache: `_DeclarativeUtilsFactory.get_declarative_utils` -/

/-- The module-level `declarative_utils` cache key
`f"{raw_database}_{tenant_id}_{schema}"`. -/
def duCacheKey (rawDatabase tenantId schema : String) : String :=
  rawDatabase ++ "_" ++ tenantId ++ "_" ++ schema

/-- A cached `DeclarativeUtils` handle, carrying the triple it was
constructed for. -/
structure DUHandle where
  rawDatabase : String
  tenantId : String
  schema : String
deriving DecidableEq, Repr

/-- The module-level `declarative_utils` dict (shadowing cons for dict
assignment). -/
def DUCache := List (String × DUHandle)

/-- `declarative_utils.get(key)`. -/
def duCacheGet (c : DUCache) (k : String) : Option DUHandle :=
  ((c.find? (fun p => p.1 = k)).map (fun p => p.2))

/-- `_DeclarativeUtilsFactory.get_declarative_utils(raw_database, tenant_id,
session_manager, schema)`: look the key up in the module-level dict; on a
hit run `_pre_check` (which leaves an already-loaded handle unchanged) and
return the cached handle, whatever triple it was created for; on a miss
construct a `DeclarativeUtils` for this triple, cache it under the key, and
return it. -/
def getDeclarativeUtils (c : DUCache) (rawDatabase tenantId schema : String) :
    DUHandle × DUCache :=
  match duCacheGet c (duCacheKey rawDatabase tenantId schema) with
  | some h => (h, c)
  | none =>
    let h : DUHandle := ⟨rawDatabase, tenantId, schema⟩
    (h, (duCacheKey rawDatabase tenantId schema, h) :: c)

/-! ## Lemmas: engine cache -/

theorem getEngine_hit (cfg : SMConfig) (s : SMState) (db : String) (t : Option String)
    (e : Engine) (h : lookupEngine s (fullyQualifiedDb db t) = some e) :
    getEngine cfg s db t = (e, s) := by
  simp only [getEngine]
  rw [h]

theorem lookupEngine_insert (l : List (String × Engine)) (i : Nat)
    (r : List (String × Option String)) (q : String) (e : Engine) :
    lookupEngine ⟨(q, e) :: l, i, r⟩ q = some e := by
  simp [lookupEngine]

theorem lookupEngine_nil (i : Nat) (r : List (String × Option String)) (q : String) :
    lookupEngine ⟨[], i, r⟩ q = none := rfl

theorem getEngine_miss_cache (pool : Bool) (s : SMState) (db : String) (t : Option String)
    (h : lookupEngine s (fullyQualifiedDb db t) = none) :
    getEngine ⟨pool, false⟩ s db t =
      (⟨s.nextEngineId, pool⟩,
        ⟨(fullyQualifiedDb db t, ⟨s.nextEngineId, pool⟩) :: s.dbEngines,
          s.nextEngineId + 1, s.postcreateRuns ++ [(db, t)]⟩) := by
  simp only [getEngine]
  rw [h]
  rfl

theorem getEngine_miss_anti (pool : Bool) (s : SMState) (db : String) (t : Option String)
    (h : lookupEngine s (fullyQualifiedDb db t) = none) :
    getEngine ⟨pool, true⟩ s db t =
      (⟨s.nextEngineId, pool⟩,
        ⟨s.dbEngines, s.nextEngineId + 1, s.postcreateRuns ++ [(db, t)]⟩) := by
  simp only [getEngine]
  rw [h]
  rfl

theorem iterate_stable (cfg : SMConfig) (db : String) (t : Option String) (e : Engine) :
    ∀ (n : Nat) (s : SMState), lookupEngine s (fullyQualifiedDb db t) = some e →
      iterateGetEngine cfg db t n s = s
  | 0, _, _ => rfl
  | n + 1, s, h => by
    rw [iterateGetEngine, getEngine_hit cfg s db t e h]
    exact iterate_stable cfg db t e n s h

theorem iterate_anti (pool : Bool) (db : String) (t : Option String) :
    ∀ (n : Nat) (nid : Nat) (runs : List (String × Option String)),
      iterateGetEngine ⟨pool, true⟩ db t n ⟨[], nid, runs⟩ =
        ⟨[], nid + n, runs ++ List.replicate n (db, t)⟩
  | 0, nid, runs => by simp [iterateGetEngine]
  | n + 1, nid, runs => by
    rw [iterateGetEngine, getEngine_miss_anti pool _ db t (lookupEngine_nil _ _ _)]
    rw [iterate_anti pool db t n (nid + 1) (runs ++ [(db, t)])]
    simp [List.replicate_succ]
    omega

/-! ## Claim C1 -/

/-- C1 counterexample.  The claim asserts that hook actions run exactly once
per identity under every configuration, including anti-persistent mode.  In
anti-persistent mode `_get_engine` never inserts the engine into
`_db_engines`, so each of two `get_engine` calls for the identity
`("billing", "acme")` misses the cache and triggers `run_postcreate`: the
hooks run twice, not once. -/
theorem hooks_rerun_in_anti_persistent_mode :
    runsFor (iterateGetEngine ⟨true, true⟩ "billing" (some "acme") 2 initSMState)
      "billing" (some "acme") = 2 ∧ (2 : Nat) ≠ 1 := by
  constructor
  · rfl
  · decide

/-- C1 amended: with caching enabled (anti-persistent mode off), hook
actions registered for the raw database run exactly once per
fully-qualified identity across any number of `get_engine` calls; with
anti-persistent mode on, the engine is never cached and the hooks run on
every call — once per engine creation. -/
theorem hooks_once_per_identity_amended (pool : Bool) (db : String) (t : Option String)
    (n : Nat) (h : 1 ≤ n) :
    runsFor (iterateGetEngine ⟨pool, false⟩ db t n initSMState) db t = 1 ∧
    runsFor (iterateGetEngine ⟨pool, true⟩ db t n initSMState) db t = n := by
  obtain ⟨m, rfl⟩ : ∃ m, n = m + 1 := ⟨n - 1, by omega⟩
  constructor
  · rw [show iterateGetEngine ⟨pool, false⟩ db t (m + 1) initSMState
        = iterateGetEngine ⟨pool, false⟩ db t m
            (getEngine ⟨pool, false⟩ initSMState db t).2 from rfl]
    rw [getEngine_miss_cache pool initSMState db t (lookupEngine_nil _ _ _)]
    rw [iterate_stable ⟨pool, false⟩ db t _ m _ (lookupEngine_insert _ _ _ _ _)]
    simp [runsFor, initSMState]
  · unfold initSMState
    rw [iterate_anti pool db t (m + 1) 0 []]
    simp [runsFor]

/-- C1 amended, witness at `n = 3`. -/
theorem hooks_once_per_identity_amended_witness :
    1 ≤ 3 ∧
      (runsFor (iterateGetEngine ⟨true, false⟩ "billing" (some "acme") 3 initSMState)
          "billing" (some "acme") = 1 ∧
        runsFor (iterateGetEngine ⟨true, true⟩ "billing" (some "acme") 3 initSMState)
          "billing" (some "acme") = 3) :=
  ⟨by decide, hooks_once_per_identity_amended true "billing" (some "acme") 3 (by decide)⟩

/-! ## Claim C2 -/

/-- C2: the claim states that a permanent authentication/login failure
stops the bootstrap retry loop immediately and is treated as fatal.  The
code's `except OperationalError` handler merely logs
`"Server connection failed"` for such errors and falls off the end of the
handler, so the `for` loop proceeds to the next attempt exactly as the
transient branch's `continue` does: with `PG_MAX_RETRY = 3` and every
attempt failing with the login error, all 3 attempts run (the budget is
fully consumed, nothing is raised), and after a login failure on attempt 0
the loop still performs attempt 1. -/
theorem bootstrap_auth_failure_keeps_retrying :
    ensureEngineConnection (fun _ => AttemptOutcome.authFailure) 3 = 3 ∧
    ensureEngineConnection (fun _ => AttemptOutcome.authFailure) 3 ≠ 1 ∧
    ensureEngineConnection
      (fun i => if i = 0 then AttemptOutcome.authFailure else AttemptOutcome.success) 3 = 2 := by
  refine ⟨rfl, by decide, rfl⟩

/-! ## Claim C3 -/

theorem execStmtsAutocommit_append (xs ys : List Stmt) (d : DBState) :
    execStmtsAutocommit (xs ++ ys) d =
      match execStmtsAutocommit xs d with
      | (some d1, _) => execStmtsAutocommit ys d1
      | (none, d1) => (none, d1) := by
  induction xs generalizing d with
  | nil => rfl
  | cons stmt rest ih =>
    rw [List.cons_append, execStmtsAutocommit, execStmtsAutocommit]
    cases hd : stmt d with
    | none => rfl
    | some d1 => exact ih d1

theorem runAutoAutocommit_eq (t : Option String) (auto : List AutoHook) (d : DBState) :
    runAutoAutocommit auto t d = execStmtsAutocommit (allAutoStmts auto t) d := by
  induction auto generalizing d with
  | nil => rfl
  | cons hook rest ih =>
    rw [runAutoAutocommit]
    have hall : allAutoStmts (hook :: rest) t = stmtsOf hook t ++ allAutoStmts rest t := by
      simp [allAutoStmts]
    rw [hall, execStmtsAutocommit_append]
    cases hd : execStmtsAutocommit (stmtsOf hook t) d with
    | mk o w =>
      cases o with
      | none => rfl
      | some d1 => exact ih d1

/-- C3 counterexample.  The claim says a failing `auto` statement aborts
the whole hook transaction and no `auto` hook's effects are persisted.
But every engine handed to `run_postcreate` is created with
`isolation_level="AUTOCOMMIT"` (both `create_engine` branches of
`_get_engine`), so each statement commits as soon as it executes and the
rollback of `with session.begin()` restores nothing.  Concretely: the
first registered `auto` hook's statement applies `"grant"` and succeeds,
the second hook's statement raises — `run_postcreate` propagates the
failure, yet the persisted state is `["grant"]`, not the initial empty
state: the first hook's effect survives. -/
theorem auto_hooks_not_atomic :
    (runPostcreate
        [fun _ => StmtResult.single (fun d => some (d ++ ["grant"])),
          fun _ => StmtResult.single (fun _ => none)]
        [] none []).1 = none ∧
    (runPostcreate
        [fun _ => StmtResult.single (fun d => some (d ++ ["grant"])),
          fun _ => StmtResult.single (fun _ => none)]
        [] none []).2 = ["grant"] ∧
    (["grant"] : DBState) ≠ ([] : DBState) := by
  refine ⟨rfl, rfl, by decide⟩

/-- C3 amended: all `auto` hooks' statements execute sequentially, in
registration order, inside the single `with session.begin()` block, and a
failing statement propagates to the caller, skipping the remaining `auto`
statements and every `manual` hook.  But the sessions are bound to engines
created with `isolation_level="AUTOCOMMIT"`, so each statement is
persisted the moment it executes: the block's rollback restores nothing,
the `auto` statements do not commit as one unit, and on failure the
persisted state is the prefix reached before the failing statement —
partial hook application occurs whenever an earlier statement succeeded.
When every statement succeeds, all `auto` effects apply in order and the
`manual` hooks then run on the resulting state. -/
theorem auto_hooks_partial_application (auto : List AutoHook) (manual : List ManualHook)
    (t : Option String) (db : DBState) :
    (∀ dPartial, execStmtsAutocommit (allAutoStmts auto t) db = (none, dPartial) →
      runPostcreate auto manual t db = (none, dPartial)) ∧
    (∀ dAll w, execStmtsAutocommit (allAutoStmts auto t) db = (some dAll, w) →
      runPostcreate auto manual t db
        = (some (manual.foldl (fun d h => h d t) dAll),
            manual.foldl (fun d h => h d t) dAll)) := by
  constructor
  · intro dPartial h
    unfold runPostcreate
    rw [runAutoAutocommit_eq, h]
  · intro dAll w h
    unfold runPostcreate
    rw [runAutoAutocommit_eq, h]

/-- C3 amended, witness: the counterexample's two hooks — the first
hook's effect is the persisted state when the second hook's statement
raises. -/
theorem auto_hooks_partial_application_witness :
    execStmtsAutocommit
        (allAutoStmts
          [fun _ => StmtResult.single (fun d => some (d ++ ["grant"])),
            fun _ => StmtResult.single (fun _ => none)] none) []
      = (none, ["grant"]) ∧
    runPostcreate
        [fun _ => StmtResult.single (fun d => some (d ++ ["grant"])),
          fun _ => StmtResult.single (fun _ => none)]
        [fun d _ => d ++ ["manual"]] none []
      = (none, ["grant"]) :=
  ⟨rfl,
    (auto_hooks_partial_application
        [fun _ => StmtResult.single (fun d => some (d ++ ["grant"])),
          fun _ => StmtResult.single (fun _ => none)]
        [fun d _ => d ++ ["manual"]] none []).1 ["grant"] rfl⟩

/-! ## Claim C6 -/

/-- C6: with caching enabled (anti-persistent off) two `get_engine` calls
for the same identity return the same pool; with anti-persistent mode on,
each call constructs a distinct pool and the cache is never written. -/
theorem engine_creation_idempotent (pool : Bool) (s : SMState) (db : String)
    (t : Option String) (h : lookupEngine s (fullyQualifiedDb db t) = none) :
    ((getEngine ⟨pool, false⟩ (getEngine ⟨pool, false⟩ s db t).2 db t).1
        = (getEngine ⟨pool, false⟩ s db t).1) ∧
    ((getEngine ⟨pool, true⟩ (getEngine ⟨pool, true⟩ s db t).2 db t).1
        ≠ (getEngine ⟨pool, true⟩ s db t).1 ∧
      (getEngine ⟨pool, true⟩ s db t).2.dbEngines = s.dbEngines ∧
      (getEngine ⟨pool, true⟩ (getEngine ⟨pool, true⟩ s db t).2 db t).2.dbEngines
        = s.dbEngines) := by
  constructor
  · rw [getEngine_miss_cache pool s db t h]
    rw [getEngine_hit ⟨pool, false⟩ _ db t _ (lookupEngine_insert _ _ _ _ _)]
  · rw [getEngine_miss_anti pool s db t h]
    have h2 : lookupEngine ⟨s.dbEngines, s.nextEngineId + 1, s.postcreateRuns ++ [(db, t)]⟩
        (fullyQualifiedDb db t) = none := h
    rw [getEngine_miss_anti pool _ db t h2]
    refine ⟨?_, rfl, rfl⟩
    simp

/-- C6 witness on a fresh manager and the identity
`("billing", tenant "acme")`. -/
theorem engine_creation_idempotent_witness :
    lookupEngine initSMState (fullyQualifiedDb "billing" (some "acme")) = none ∧
    (((getEngine ⟨true, false⟩
          (getEngine ⟨true, false⟩ initSMState "billing" (some "acme")).2
          "billing" (some "acme")).1
        = (getEngine ⟨true, false⟩ initSMState "billing" (some "acme")).1) ∧
      (((getEngine ⟨true, true⟩
            (getEngine ⟨true, true⟩ initSMState "billing" (some "acme")).2
            "billing" (some "acme")).1
          ≠ (getEngine ⟨true, true⟩ initSMState "billing" (some "acme")).1) ∧
        (getEngine ⟨true, true⟩ initSMState "billing" (some "acme")).2.dbEngines
          = initSMState.dbEngines ∧
        (getEngine ⟨true, true⟩
            (getEngine ⟨true, true⟩ initSMState "billing" (some "acme")).2
            "billing" (some "acme")).2.dbEngines = initSMState.dbEngines)) :=
  ⟨rfl, engine_creation_idempotent true initSMState "billing" (some "acme") rfl⟩

/-! ## Claim C10 -/

theorem storeGet_storeSet (st : Store) (d : String) (l : List Nat) (d2 : String) :
    storeGet (storeSet st d l) d2 = if d = d2 then l else storeGet st d2 := by
  by_cases h : d = d2
  · simp [storeGet, storeSet, List.find?_cons, h]
  · simp [storeGet, storeSet, List.find?_cons, h]

theorem registerAll_appends (func : Nat) (d : String) : ∀ (dbs : List String) (st : Store),
    storeGet (dbs.foldl (fun s db => storeSet s db (storeGet s db ++ [func])) st) d
      = storeGet st d ++ List.replicate (dbs.count d) func
  | [], st => by simp
  | db :: rest, st => by
    rw [List.foldl_cons, registerAll_appends func d rest]
    rw [storeGet_storeSet]
    by_cases h : db = d
    · subst h
      simp [List.count_cons, List.replicate_succ, List.append_assoc]
    · simp [h, List.count_cons, Ne.symm h]

/-- C10: the decorator returned by `register_postcreate` /
`register_postcreate_manual` appends the decorated action to the registry
of each given raw database name (once per occurrence, preserving
registration order: existing actions stay in front), leaves every other
name's registry unchanged, and itself returns `None`, so the decorated
function's name is rebound to `None` in the caller's namespace while the
action remains registered. -/
theorem register_postcreate_decorator_spec (rawDb : RawDb) (st : Store) (func : Nat) :
    (decoratorApply rawDb st func).2 = none ∧
    ∀ db, storeGet (decoratorApply rawDb st func).1 db
        = storeGet st db ++ List.replicate (rawDbCount rawDb db) func := by
  cases rawDb with
  | single d =>
    refine ⟨rfl, fun db => ?_⟩
    rw [show (decoratorApply (RawDb.single d) st func).1
        = storeSet st d (storeGet st d ++ [func]) from rfl]
    rw [storeGet_storeSet]
    by_cases h : d = db
    · subst h; simp [rawDbCount]
    · simp [rawDbCount, h]
  | list dbs =>
    refine ⟨rfl, fun db => ?_⟩
    exact registerAll_appends func db dbs st

/-! ## Claim C7 -/

/-- C7: name resolution against a loaded binding module tries, in this
exact order, the Pascal-cased name, the `t_`-prefixed name, the exact name,
and the underscore-stripped name, returning the first existing binding —
i.e. it coincides with the specification's first-match resolution over the
four candidates — and exhausting all four (for instance on a module
exposing nothing) yields `None` rather than an error; absent a loaded
module the result is `None` as well.  For `"user_profile"` the four
candidates are `"UserProfile"`, `"t_user_profile"`, `"user_profile"`,
`"userprofile"`. -/
theorem name_resolution_total_order (m : BindingModule) (tableName : String) :
    getDeclarativeClass (some m) tableName = specNameResolution m tableName ∧
    getDeclarativeClass none tableName = none ∧
    getDeclarativeClass (some []) tableName = none ∧
    toPascal "user_profile" = "UserProfile" ∧
    ("t_" ++ "user_profile" : String) = "t_user_profile" ∧
    stripUnderscoresAll "user_profile" = "userprofile" := by
  refine ⟨?_, rfl, rfl, by decide, by decide, by decide⟩
  simp only [getDeclarativeClass, specNameResolution, List.map_cons, List.map_nil,
    List.foldl_cons, List.foldl_nil]
  cases h1 : getAttr m (toPascal tableName) with
  | some c => simp
  | none =>
    cases h2 : getAttr m ("t_" ++ tableName) with
    | some c => simp
    | none =>
      cases h3 : getAttr m tableName with
      | some c => simp
      | none =>
        cases h4 : getAttr m (stripUnderscoresAll tableName) with
        | some c => simp
        | none => simp

/-! ## Claim C9 -/

/-- C9: the binding-cache key `f"{raw_database}_{tenant_id}_{schema}"` is
not injective: the distinct triples `("a", "b_c", "s")` and
`("a_b", "c", "s")` share the key `"a_b_c_s"`, and after the factory caches
the handle for the first triple, a lookup for the second triple returns
that cached handle — a `DeclarativeUtils` built for
`raw_database = "a", tenant_id = "b_c"` — instead of one for its own
triple. -/
theorem binding_cache_key_collision :
    duCacheKey "a" "b_c" "s" = duCacheKey "a_b" "c" "s" ∧
    (("a", "b_c", "s") : String × String × String) ≠ ("a_b", "c", "s") ∧
    (getDeclarativeUtils (getDeclarativeUtils ([] : DUCache) "a" "b_c" "s").2
        "a_b" "c" "s").1 = ⟨"a", "b_c", "s"⟩ ∧
    (⟨"a", "b_c", "s"⟩ : DUHandle) ≠ ⟨"a_b", "c", "s"⟩ := by
  refine ⟨rfl, by decide, by decide, by decide⟩

/-! ## Lemmas: binding-cache preparation and loading -/

theorem ensureTenantPkg_exists (a : DUArgs) (rt : PyRuntime)
    (h1 : tenantDir a ∈ rt.files) (h2 : tenantInitFile a ∈ rt.files) :
    ensureTenantPkg a rt = (rt, []) := by
  unfold ensureTenantPkg
  rw [if_pos h1, if_pos h2]

theorem ensureTenantPkg_sysModules (a : DUArgs) (rt : PyRuntime) :
    (ensureTenantPkg a rt).1.sysModules = rt.sysModules := by
  unfold ensureTenantPkg
  split_ifs <;> rfl

theorem ensureTenantPkg_files_mono (a : DUArgs) (rt : PyRuntime) (x : String)
    (hx : x ∈ rt.files) : x ∈ (ensureTenantPkg a rt).1.files := by
  unfold ensureTenantPkg
  split_ifs <;> simp [hx]

theorem reflect_not_mem_ensureTenantPkg (a : DUArgs) (rt : PyRuntime) :
    Eff.reflectSchema ∉ (ensureTenantPkg a rt).2 := by
  unfold ensureTenantPkg
  split_ifs <;> simp

theorem writeArtifact_not_mem_ensureTenantPkg (a : DUArgs) (rt : PyRuntime) (fp : String) :
    Eff.writeArtifact fp ∉ (ensureTenantPkg a rt).2 := by
  unfold ensureTenantPkg
  split_ifs <;> simp

theorem lookupSysModule_ensureTenantPkg (a : DUArgs) (rt : PyRuntime) (p : String) :
    lookupSysModule (ensureTenantPkg a rt).1 p = lookupSysModule rt p := by
  unfold lookupSysModule
  rw [ensureTenantPkg_sysModules]

theorem prepare_defer_hit (a : DUArgs) (f : DUFlags) (rt : PyRuntime)
    (hArt : artifactFile a ∈ rt.files) (hDefer : f.deferGenRefresh = true) :
    prepareDeclarativeFile a false f rt
      = (PrepRes.path (declModulePath a), (ensureTenantPkg a rt).1, (ensureTenantPkg a rt).2) := by
  simp only [prepareDeclarativeFile]
  split_ifs with h h2 h3 <;>
    first
      | rfl
      | exact absurd ⟨ensureTenantPkg_files_mono a rt _ hArt, hDefer, by trivial⟩ h

theorem importModule_cached (p : String) (a : DUArgs) (rt : PyRuntime) (m : Nat)
    (h : lookupSysModule rt p = some m) : importModule p a rt = (ImportRes.ok m, rt) := by
  unfold importModule
  rw [h]

/-! ## Claim C8 -/

/-- C8: if the artifact for the triple already exists on disk,
`DEFER_GEN_REFRESH` is enabled and no refresh was requested, a binding
lookup performs no schema reflection and no artifact write:
`_prepare_declarative_file` returns the deterministic logical module path
at once and `_get_declarative_module` proceeds directly to the load —
which, on a repeat lookup whose module is already loaded, returns that
module. -/
theorem defer_regeneration_skips_reflection (a : DUArgs) (f : DUFlags) (dm : ModRef)
    (rt : PyRuntime) (m : Nat)
    (hArt : artifactFile a ∈ rt.files) (hDefer : f.deferGenRefresh = true)
    (hMod : lookupSysModule rt (declModulePath a) = some m) :
    (prepareDeclarativeFile a false f rt).1 = PrepRes.path (declModulePath a) ∧
    (getDeclarativeModule a f dm rt).1 = ModResult.mod m ∧
    Eff.reflectSchema ∉ (getDeclarativeModule a f dm rt).2.2.2 ∧
    (∀ fp, Eff.writeArtifact fp ∉ (getDeclarativeModule a f dm rt).2.2.2) ∧
    Eff.importModule (declModulePath a) ∈ (getDeclarativeModule a f dm rt).2.2.2 := by
  have hprep := prepare_defer_hit a f rt hArt hDefer
  have himp : importModule (declModulePath a) a (ensureTenantPkg a rt).1
      = (ImportRes.ok m, (ensureTenantPkg a rt).1) :=
    importModule_cached _ a _ m (by rw [lookupSysModule_ensureTenantPkg, hMod])
  have hrun : getDeclarativeModule a f dm rt
      = (ModResult.mod m, ModRef.module m, (ensureTenantPkg a rt).1,
          (ensureTenantPkg a rt).2 ++ [Eff.importModule (declModulePath a)]) := by
    simp only [getDeclarativeModule, hprep, himp]
  refine ⟨by rw [hprep], by rw [hrun], ?_, ?_, ?_⟩
  · rw [hrun]
    simp [List.mem_append, reflect_not_mem_ensureTenantPkg a rt]
  · intro fp
    rw [hrun]
    simp [List.mem_append, writeArtifact_not_mem_ensureTenantPkg a rt fp]
  · rw [hrun]
    simp

/-- C8 witness: a second lookup for `("billing", "acme", "public")` with
the artifact present, defer-regeneration on, and the module already loaded
as module `4`. -/
theorem defer_regeneration_skips_reflection_witness :
    (artifactFile ⟨"billing", "acme", "public", false⟩
        ∈ (⟨["acme", "acme/__init__.py", "acme/async_billing_public.py"],
            [("acme/async_billing_public.py", 1)], [("billing", "public")],
            [("acme.async_billing_public", 4)], [(4, 1)], 5⟩ : PyRuntime).files) ∧
    ((⟨true, true, true⟩ : DUFlags).deferGenRefresh = true) ∧
    (lookupSysModule
        (⟨["acme", "acme/__init__.py", "acme/async_billing_public.py"],
          [("acme/async_billing_public.py", 1)], [("billing", "public")],
          [("acme.async_billing_public", 4)], [(4, 1)], 5⟩ : PyRuntime)
        (declModulePath ⟨"billing", "acme", "public", false⟩) = some 4) ∧
    ((prepareDeclarativeFile ⟨"billing", "acme", "public", false⟩ false ⟨true, true, true⟩
        ⟨["acme", "acme/__init__.py", "acme/async_billing_public.py"],
          [("acme/async_billing_public.py", 1)], [("billing", "public")],
          [("acme.async_billing_public", 4)], [(4, 1)], 5⟩).1
        = PrepRes.path (declModulePath ⟨"billing", "acme", "public", false⟩) ∧
      (getDeclarativeModule ⟨"billing", "acme", "public", false⟩ ⟨true, true, true⟩
          (ModRef.module 4)
          ⟨["acme", "acme/__init__.py", "acme/async_billing_public.py"],
            [("acme/async_billing_public.py", 1)], [("billing", "public")],
            [("acme.async_billing_public", 4)], [(4, 1)], 5⟩).1 = ModResult.mod 4 ∧
      Eff.reflectSchema ∉ (getDeclarativeModule ⟨"billing", "acme", "public", false⟩
          ⟨true, true, true⟩ (ModRef.module 4)
          ⟨["acme", "acme/__init__.py", "acme/async_billing_public.py"],
            [("acme/async_billing_public.py", 1)], [("billing", "public")],
            [("acme.async_billing_public", 4)], [(4, 1)], 5⟩).2.2.2 ∧
      (∀ fp, Eff.writeArtifact fp ∉ (getDeclarativeModule ⟨"billing", "acme", "public", false⟩
          ⟨true, true, true⟩ (ModRef.module 4)
          ⟨["acme", "acme/__init__.py", "acme/async_billing_public.py"],
            [("acme/async_billing_public.py", 1)], [("billing", "public")],
            [("acme.async_billing_public", 4)], [(4, 1)], 5⟩).2.2.2) ∧
      Eff.importModule (declModulePath ⟨"billing", "acme", "public", false⟩)
        ∈ (getDeclarativeModule ⟨"billing", "acme", "public", false⟩ ⟨true, true, true⟩
            (ModRef.module 4)
            ⟨["acme", "acme/__init__.py", "acme/async_billing_public.py"],
              [("acme/async_billing_public.py", 1)], [("billing", "public")],
              [("acme.async_billing_public", 4)], [(4, 1)], 5⟩).2.2.2) :=
  ⟨by decide, rfl, by decide,
    defer_regeneration_skips_reflection ⟨"billing", "acme", "public", false⟩
      ⟨true, true, true⟩ (ModRef.module 4)
      ⟨["acme", "acme/__init__.py", "acme/async_billing_public.py"],
        [("acme/async_billing_public.py", 1)], [("billing", "public")],
        [("acme.async_billing_public", 4)], [(4, 1)], 5⟩ 4
      (by decide) rfl (by decide)⟩

/-! ## Lemmas: module import and regeneration -/

theorem importModule_conflict (p : String) (a : DUArgs) (rt : PyRuntime)
    (h : lookupSysModule rt p = none) (h2 : artifactFile a ∈ rt.files)
    (h3 : (a.rawDatabase, a.schema) ∈ rt.registeredBases) :
    importModule p a rt = (ImportRes.errAlreadyDefined, rt) := by
  simp only [importModule, h]
  rw [if_pos h2, if_pos h3]

theorem importModule_fresh (p : String) (a : DUArgs) (rt : PyRuntime)
    (h : lookupSysModule rt p = none) (h2 : artifactFile a ∈ rt.files)
    (h3 : (a.rawDatabase, a.schema) ∉ rt.registeredBases) :
    importModule p a rt = (ImportRes.ok rt.nextModule,
      { rt with
        sysModules := (p, rt.nextModule) :: rt.sysModules,
        registeredBases := (a.rawDatabase, a.schema) :: rt.registeredBases,
        moduleVer := (rt.nextModule, getArtifactVer rt (artifactFile a)) :: rt.moduleVer,
        nextModule := rt.nextModule + 1 }) := by
  simp only [importModule, h]
  rw [if_pos h2, if_neg h3]

theorem importModule_missing (p : String) (a : DUArgs) (rt : PyRuntime)
    (h : lookupSysModule rt p = none) (h2 : artifactFile a ∉ rt.files) :
    importModule p a rt = (ImportRes.errNoModule, rt) := by
  simp only [importModule, h]
  rw [if_neg h2]

theorem prepare_no_codegen (a : DUArgs) (refresh : Bool) (f : DUFlags) (rt : PyRuntime)
    (hcg : f.codegenInstalled = false) :
    prepareDeclarativeFile a refresh f rt
      = (PrepRes.path (declModulePath a), (ensureTenantPkg a rt).1, (ensureTenantPkg a rt).2) := by
  by_cases hd : artifactFile a ∈ (ensureTenantPkg a rt).1.files
      ∧ f.deferGenRefresh = true ∧ refresh = false
  · simp only [prepareDeclarativeFile]
    rw [if_pos hd]
  · simp only [prepareDeclarativeFile]
    rw [if_neg hd, if_pos hcg]

theorem prepare_regen (a : DUArgs) (f : DUFlags) (rt : PyRuntime)
    (hcg : f.codegenInstalled = true) (hro : f.reflectOk = true) :
    prepareDeclarativeFile a true f rt
      = (PrepRes.path (declModulePath a),
          bumpArtifact (ensureTenantPkg a rt).1 (artifactFile a),
          (ensureTenantPkg a rt).2 ++ [Eff.reflectSchema, Eff.writeArtifact (artifactFile a)]) := by
  simp only [prepareDeclarativeFile]
  rw [if_neg (fun hc => absurd hc.2.2 (by decide)),
    if_neg (show ¬f.codegenInstalled = false by simp [hcg]),
    if_neg (show ¬f.reflectOk = false by simp [hro])]

theorem not_mem_filter_ne (x : String × String) (l : List (String × String)) :
    x ∉ l.filter (fun p => p ≠ x) := by
  intro hx
  rw [List.mem_filter] at hx
  simp at hx

theorem bumpArtifact_files_of_mem (rt : PyRuntime) (fp : String) (h : fp ∈ rt.files) :
    (bumpArtifact rt fp).files = rt.files := by
  unfold bumpArtifact
  rw [if_pos h]

theorem getArtifactVer_bump (rt : PyRuntime) (fp : String) :
    getArtifactVer (bumpArtifact rt fp) fp = getArtifactVer rt fp + 1 := by
  simp [getArtifactVer, bumpArtifact]

/-! ## Claim C4 -/

/-- C4 counterexample.  The claim says conflict recovery "reloads the
existing module handle in place rather than importing a fresh one".  In the
code the conflict handler calls `refresh_module(non_refresh=True)`, whose
`non_refresh` branch runs `importlib.import_module` — not
`importlib.reload`.  Concretely: tenant `"t"`, database `"db"`, schema
`"s"`, artifact on disk at version 1, base `("db", "s")` already
registered, nothing loaded — the recovery's operation trace performs
`import_module` twice and contains no reload. -/
theorem conflict_recovery_does_not_reload :
    ((getDeclarativeModule ⟨"db", "t", "s", false⟩ ⟨true, true, true⟩ ModRef.noneRef
        ⟨["t", "t/__init__.py", "t/async_db_s.py"], [("t/async_db_s.py", 1)],
          [("db", "s")], [], [], 7⟩).2.2.2).count
        (Eff.importModule (declModulePath ⟨"db", "t", "s", false⟩)) = 2 ∧
    Eff.reloadModule (declModulePath ⟨"db", "t", "s", false⟩)
      ∉ (getDeclarativeModule ⟨"db", "t", "s", false⟩ ⟨true, true, true⟩ ModRef.noneRef
          ⟨["t", "t/__init__.py", "t/async_db_s.py"], [("t/async_db_s.py", 1)],
            [("db", "s")], [], [], 7⟩).2.2.2 := by
  refine ⟨by decide, by decide⟩

/-- C4 amended: when the load fails because a binding with the same logical
name is already bound, the cache removes the previously registered
declarative base for the `(database, schema)` pair, forces re-reflection
with refresh true (regenerating the artifact), and then re-imports the
module at the deterministic logical path (`refresh_module` is invoked with
`non_refresh=True`, taking the `import_module` branch — a fresh module
object — rather than reloading the existing handle in place); the returned
handle is bound to the updated artifact. -/
theorem conflict_recovery_reimports (a : DUArgs) (dm : ModRef) (rt : PyRuntime)
    (hDir : tenantDir a ∈ rt.files) (hInit : tenantInitFile a ∈ rt.files)
    (hArt : artifactFile a ∈ rt.files)
    (hSys : lookupSysModule rt (declModulePath a) = none)
    (hBase : (a.rawDatabase, a.schema) ∈ rt.registeredBases) :
    (getDeclarativeModule a ⟨true, true, true⟩ dm rt).1 = ModResult.mod rt.nextModule ∧
    (getDeclarativeModule a ⟨true, true, true⟩ dm rt).2.2.2
      = [Eff.importModule (declModulePath a),
          Eff.removeBaseClass a.rawDatabase a.schema, Eff.reflectSchema,
          Eff.writeArtifact (artifactFile a), Eff.importModule (declModulePath a)] ∧
    Eff.reloadModule (declModulePath a)
      ∉ (getDeclarativeModule a ⟨true, true, true⟩ dm rt).2.2.2 ∧
    getModuleVer (getDeclarativeModule a ⟨true, true, true⟩ dm rt).2.2.1 rt.nextModule
      = getArtifactVer rt (artifactFile a) + 1 ∧
    getArtifactVer (getDeclarativeModule a ⟨true, true, true⟩ dm rt).2.2.1 (artifactFile a)
      = getArtifactVer rt (artifactFile a) + 1 := by
  have hEns : ensureTenantPkg a rt = (rt, []) := ensureTenantPkg_exists a rt hDir hInit
  have hprep1 : prepareDeclarativeFile a false ⟨true, true, true⟩ rt
      = (PrepRes.path (declModulePath a), rt, []) := by
    rw [prepare_defer_hit a ⟨true, true, true⟩ rt hArt rfl, hEns]
  have himp1 : importModule (declModulePath a) a rt = (ImportRes.errAlreadyDefined, rt) :=
    importModule_conflict _ a rt hSys hArt hBase
  have hEns1 : ensureTenantPkg a
      { rt with registeredBases :=
          rt.registeredBases.filter (fun p => p ≠ (a.rawDatabase, a.schema)) }
      = ({ rt with registeredBases :=
          rt.registeredBases.filter (fun p => p ≠ (a.rawDatabase, a.schema)) }, []) :=
    ensureTenantPkg_exists a _ hDir hInit
  have hprep2 : prepareDeclarativeFile a true ⟨true, true, true⟩
      { rt with registeredBases :=
          rt.registeredBases.filter (fun p => p ≠ (a.rawDatabase, a.schema)) }
      = (PrepRes.path (declModulePath a),
          bumpArtifact
            { rt with registeredBases :=
                rt.registeredBases.filter (fun p => p ≠ (a.rawDatabase, a.schema)) }
            (artifactFile a),
          [Eff.reflectSchema, Eff.writeArtifact (artifactFile a)]) := by
    rw [prepare_regen a ⟨true, true, true⟩ _ rfl rfl, hEns1]
    rfl
  have hArtBump : artifactFile a ∈ (bumpArtifact
      { rt with registeredBases :=
          rt.registeredBases.filter (fun p => p ≠ (a.rawDatabase, a.schema)) }
      (artifactFile a)).files := by
    rw [bumpArtifact_files_of_mem
      { rt with registeredBases :=
          rt.registeredBases.filter (fun p => p ≠ (a.rawDatabase, a.schema)) }
      (artifactFile a) hArt]
    exact hArt
  have himp2 := importModule_fresh (declModulePath a) a
    (bumpArtifact
      { rt with registeredBases :=
          rt.registeredBases.filter (fun p => p ≠ (a.rawDatabase, a.schema)) }
      (artifactFile a))
    hSys hArtBump (not_mem_filter_ne (a.rawDatabase, a.schema) rt.registeredBases)
  refine ⟨?_, ?_, ?_, ?_, ?_⟩ <;>
    simp only [getDeclarativeModule, hprep1, himp1, refreshModule, hprep2, himp2]
  · rfl
  · rfl
  · simp
  · simp [getModuleVer, getArtifactVer, bumpArtifact]
  · simp [getArtifactVer, bumpArtifact]

/-- C4 amended, witness: the concrete conflict scenario of the
counterexample, applied through the general theorem. -/
theorem conflict_recovery_reimports_witness :
    (tenantDir ⟨"db", "t", "s", false⟩
        ∈ (⟨["t", "t/__init__.py", "t/async_db_s.py"], [("t/async_db_s.py", 1)],
            [("db", "s")], [], [], 7⟩ : PyRuntime).files) ∧
    (tenantInitFile ⟨"db", "t", "s", false⟩
        ∈ (⟨["t", "t/__init__.py", "t/async_db_s.py"], [("t/async_db_s.py", 1)],
            [("db", "s")], [], [], 7⟩ : PyRuntime).files) ∧
    (artifactFile ⟨"db", "t", "s", false⟩
        ∈ (⟨["t", "t/__init__.py", "t/async_db_s.py"], [("t/async_db_s.py", 1)],
            [("db", "s")], [], [], 7⟩ : PyRuntime).files) ∧
    (lookupSysModule (⟨["t", "t/__init__.py", "t/async_db_s.py"], [("t/async_db_s.py", 1)],
        [("db", "s")], [], [], 7⟩ : PyRuntime) (declModulePath ⟨"db", "t", "s", false⟩)
      = none) ∧
    ((⟨"db", "t", "s", false⟩ : DUArgs).rawDatabase, (⟨"db", "t", "s", false⟩ : DUArgs).schema)
      ∈ (⟨["t", "t/__init__.py", "t/async_db_s.py"], [("t/async_db_s.py", 1)],
          [("db", "s")], [], [], 7⟩ : PyRuntime).registeredBases ∧
    (getDeclarativeModule ⟨"db", "t", "s", false⟩ ⟨true, true, true⟩ ModRef.noneRef
        ⟨["t", "t/__init__.py", "t/async_db_s.py"], [("t/async_db_s.py", 1)],
          [("db", "s")], [], [], 7⟩).1 = ModResult.mod 7 :=
  ⟨by decide, by decide, by decide, rfl, by decide,
    (conflict_recovery_reimports ⟨"db", "t", "s", false⟩ ModRef.noneRef
      ⟨["t", "t/__init__.py", "t/async_db_s.py"], [("t/async_db_s.py", 1)],
        [("db", "s")], [], [], 7⟩
      (by decide) (by decide) (by decide) rfl (by decide)).1⟩

/-! ## Claim C5 -/

/-- C5 counterexample.  The claim says an absent codegen component is
recovered locally and surfaced as an absence value, never a raised fault
and never the process-fatal load-missing path.  In the code the
`except ImportError` handler only logs and then falls through to the final
`return` of the logical path, so `_prepare_declarative_file` does not
surface an absence value; with no artifact on disk (tenant `"t"`, database
`"db"`, schema `"s"`, codegen extra absent), the subsequent import fails
with `"No module named"` and `_get_declarative_module` takes the
process-fatal path (`sys.exit(1)` after cancelling tasks). -/
theorem codegen_absent_hits_fatal_path :
    (prepareDeclarativeFile ⟨"db", "t", "s", false⟩ false ⟨true, false, true⟩
        ⟨["t", "t/__init__.py"], [], [], [], [], 0⟩).1
      = PrepRes.path (declModulePath ⟨"db", "t", "s", false⟩) ∧
    (prepareDeclarativeFile ⟨"db", "t", "s", false⟩ false ⟨true, false, true⟩
        ⟨["t", "t/__init__.py"], [], [], [], [], 0⟩).1 ≠ PrepRes.failedFalse ∧
    (getDeclarativeModule ⟨"db", "t", "s", false⟩ ⟨true, false, true⟩ ModRef.noneRef
        ⟨["t", "t/__init__.py"], [], [], [], [], 0⟩).1 = ModResult.exit ∧
    Eff.exitProcess ∈ (getDeclarativeModule ⟨"db", "t", "s", false⟩ ⟨true, false, true⟩
        ModRef.noneRef ⟨["t", "t/__init__.py"], [], [], [], [], 0⟩).2.2.2 := by
  refine ⟨by decide, by decide, by decide, by decide⟩

/-- C5 amended: when the codegen component is absent,
`_prepare_declarative_file` logs the `ImportError` and still returns the
deterministic logical module path (performing no reflection and no
artifact write); the operation then attempts the load, which succeeds when
an artifact from a previous generation exists at the path, and otherwise
escalates to the process-fatal load-missing path (task cancellation and
`sys.exit(1)`).  A non-import reflection failure instead makes
`_prepare_declarative_file` return `False`, and the operation surfaces the
absence value `None`. -/
theorem generation_unavailable_amended (a : DUArgs) (f : DUFlags) (dm : ModRef)
    (rt : PyRuntime)
    (hDir : tenantDir a ∈ rt.files) (hInit : tenantInitFile a ∈ rt.files)
    (hSys : lookupSysModule rt (declModulePath a) = none) :
    (f.codegenInstalled = false →
      prepareDeclarativeFile a false f rt = (PrepRes.path (declModulePath a), rt, [])) ∧
    (f.codegenInstalled = false → artifactFile a ∉ rt.files →
      getDeclarativeModule a f dm rt
        = (ModResult.exit, ModRef.pathStr (declModulePath a), rt,
            [Eff.importModule (declModulePath a), Eff.cancelTasks, Eff.exitProcess])) ∧
    (f.codegenInstalled = false → artifactFile a ∈ rt.files →
      (a.rawDatabase, a.schema) ∉ rt.registeredBases →
      (getDeclarativeModule a f dm rt).1 = ModResult.mod rt.nextModule) ∧
    (f.codegenInstalled = true → f.reflectOk = false → artifactFile a ∉ rt.files →
      prepareDeclarativeFile a false f rt = (PrepRes.failedFalse, rt, [Eff.reflectSchema]) ∧
      (getDeclarativeModule a f dm rt).1 = ModResult.noneRes) := by
  have hEns : ensureTenantPkg a rt = (rt, []) := ensureTenantPkg_exists a rt hDir hInit
  have hNoCg : ∀ (hcg : f.codegenInstalled = false),
      prepareDeclarativeFile a false f rt = (PrepRes.path (declModulePath a), rt, []) := by
    intro hcg
    rw [prepare_no_codegen a false f rt hcg, hEns]
  refine ⟨hNoCg, ?_, ?_, ?_⟩
  · intro hcg hArtN
    have himp : importModule (declModulePath a) a rt = (ImportRes.errNoModule, rt) :=
      importModule_missing _ a rt hSys hArtN
    simp only [getDeclarativeModule, hNoCg hcg, himp]
    rfl
  · intro hcg hArtY hBaseN
    have himp := importModule_fresh (declModulePath a) a rt hSys hArtY hBaseN
    simp only [getDeclarativeModule, hNoCg hcg, himp]
  · intro hcg hro hArtN
    have hc1 : ¬(artifactFile a ∈ (ensureTenantPkg a rt).1.files
        ∧ f.deferGenRefresh = true ∧ True) := by
      rw [hEns]
      exact fun hc => hArtN hc.1
    have hprep : prepareDeclarativeFile a false f rt
        = (PrepRes.failedFalse, rt, [Eff.reflectSchema]) := by
      simp only [prepareDeclarativeFile]
      rw [if_neg hc1, if_neg (show ¬f.codegenInstalled = false by simp [hcg]),
        if_pos hro, hEns]
      rfl
    refine ⟨hprep, ?_⟩
    simp only [getDeclarativeModule, hprep]

/-- C5 amended, witness: codegen absent, tenant package present, artifact
missing — the operation ends in process exit. -/
theorem generation_unavailable_amended_witness :
    (tenantDir ⟨"db", "t", "s", false⟩
        ∈ (⟨["t", "t/__init__.py"], [], [], [], [], 0⟩ : PyRuntime).files) ∧
    (tenantInitFile ⟨"db", "t", "s", false⟩
        ∈ (⟨["t", "t/__init__.py"], [], [], [], [], 0⟩ : PyRuntime).files) ∧
    (lookupSysModule (⟨["t", "t/__init__.py"], [], [], [], [], 0⟩ : PyRuntime)
        (declModulePath ⟨"db", "t", "s", false⟩) = none) ∧
    getDeclarativeModule ⟨"db", "t", "s", false⟩ ⟨true, false, true⟩ ModRef.noneRef
        ⟨["t", "t/__init__.py"], [], [], [], [], 0⟩
      = (ModResult.exit, ModRef.pathStr (declModulePath ⟨"db", "t", "s", false⟩),
          ⟨["t", "t/__init__.py"], [], [], [], [], 0⟩,
          [Eff.importModule (declModulePath ⟨"db", "t", "s", false⟩),
            Eff.cancelTasks, Eff.exitProcess]) :=
  ⟨by decide, by decide, rfl,
    (generation_unavailable_amended ⟨"db", "t", "s", false⟩ ⟨true, false, true⟩
        ModRef.noneRef ⟨["t", "t/__init__.py"], [], [], [], [], 0⟩
        (by decide) (by decide) rfl).2.1 rfl (by decide)⟩

end SqlDbUtils
